import Mathlib

/-!
Verification of the rudas `Series` type (`src/data.rs`).

A `Series<T, U>` pairs a vector of values (`data`) with a vector of axis
labels (`label`).  The Rust `Vec` fields are embedded as Lean `List`s.
The two constructors that abort on a length mismatch (`from_label`,
`from_data_new_label`) are embedded as `Except SeriesError` computations,
with `SeriesError.lengthMismatch` standing for the abort.  The printing
loop of `debug` is embedded as a function producing the list of emitted
lines, returning `none` exactly when the loop would index the label
vector out of bounds.
-/

/-- Error modelling the abort raised when a value sequence and a label
sequence of differing lengths are supplied together (the source stops
with the message "Length of data and label should be equal."). -/
inductive SeriesError : Type
  | lengthMismatch
deriving DecidableEq

/-- Embedding of `Series<T, U>`: parallel `data` and `label` vectors. -/
structure Series (T U : Type) : Type where
  data : List T
  label : List U
deriving DecidableEq

namespace Series

/-- Embedding of `Series::from`: the data is a copy of `v`, the labels are
`(0..v.len()).collect()`, i.e. the positions `0, 1, ..., v.len() - 1`. -/
def from_values {T : Type} (v : List T) : Series T Nat :=
  { data := v, label := List.range v.length }

/-- Embedding of `Series::from_label`: aborts when the lengths of `v` and
`l` differ, otherwise copies both into a new instance. -/
def from_label {T U : Type} (v : List T) (l : List U) :
    Except SeriesError (Series T U) :=
  if v.length ≠ l.length then
    .error .lengthMismatch
  else
    .ok { data := v, label := l }

/-- Embedding of `Series::from_self`: clones both vectors of `s`. -/
def from_self {T U : Type} (s : Series T U) : Series T U :=
  { data := s.data, label := s.label }

/-- Embedding of `Series::from_data`: clones the data of `s` and assigns
the default labels `(0..s.data.len()).collect()`. -/
def from_data {T U : Type} (s : Series T U) : Series T Nat :=
  { data := s.data, label := List.range s.data.length }

/-- Embedding of `Series::from_data_new_label`: aborts when
`s.data.len() != l.len()`, otherwise clones the data of `s` and takes `l`
as the new labels (the label type may change from `U` to `L`). -/
def from_data_new_label {T U L : Type} (s : Series T U) (l : List L) :
    Except SeriesError (Series T L) :=
  if s.data.length ≠ l.length then
    .error .lengthMismatch
  else
    .ok { data := s.data, label := l }

/-- Embedding of the printing loop of `Series::debug`: for each `i` in
`0..data.len()` it emits `label[i]`, a tab, `data[i]`; the result is
`none` when the loop would index `label` out of bounds (the indexing
abort of `self.label[i]`).  `dT` and `dU` stand for the `Display`
implementations of `T` and `U`. -/
def pairLines {T U : Type} (dT : T → String) (dU : U → String) :
    List U → List T → Option (List String)
  | _, [] => some []
  | [], _ :: _ => none
  | u :: us, x :: xs =>
    match pairLines dT dU us xs with
    | none => none
    | some r => some ((dU u ++ "\t" ++ dT x) :: r)

/-- Embedding of `Series::debug`: one `<label>\t<value>` line per data
element, in positional order, followed by the trailing line
`type : <name of T>`; `nm` stands for `type_name::<T>()`. -/
def debugLines {T U : Type} (dT : T → String) (dU : U → String)
    (nm : String) (s : Series T U) : Option (List String) :=
  match pairLines dT dU s.label s.data with
  | none => none
  | some r => some (r ++ ["type : " ++ nm])

/-- Embedding of `Series::t`: the source returns `self.clone()` at type
`&Self`; since `Series<T, U>according to the bounds of the impl block has
no `Clone` instance for a general `U`, this clones the reference and
returns the very same instance, i.e. the identity. -/
def t {T U : Type} (s : Series T U) : Series T U := s

/-- Embedding of the `Clone` implementation generated by
`#[derive(Clone)]` on `Series`: each `Vec` field is cloned element by
element (element clones are identities in this pure model). -/
def derivedClone {T U : Type} (s : Series T U) : Series T U :=
  { data := s.data.map (fun x => x), label := s.label.map (fun x => x) }

end Series

/-- The printing loop succeeds and produces exactly the zip of labels and
data whenever the data vector is no longer than the label vector. -/
theorem Series.pairLines_eq_zipWith {T U : Type} (dT : T → String)
    (dU : U → String) :
    ∀ (us : List U) (xs : List T), xs.length ≤ us.length →
      Series.pairLines dT dU us xs
        = some (List.zipWith (fun u x => dU u ++ "\t" ++ dT x) us xs)
  | us, [], _ => by cases us <;> simp [Series.pairLines]
  | [], _ :: _, h => by simp at h
  | u :: us, x :: xs, h => by
    have ih := Series.pairLines_eq_zipWith dT dU us xs (by simpa using h)
    simp [Series.pairLines, ih]

/-- Auxiliary list fact: reading inside the left part of an append. -/
theorem getD_append_left {α : Type} (d : α) :
    ∀ (l m : List α) (i : Nat), i < l.length → (l ++ m).getD i d = l.getD i d
  | [], _, _, h => by simp at h
  | _ :: _, m, 0, _ => rfl
  | a :: l, m, i + 1, h =>
    getD_append_left d l m i (by simpa using h)

/-- Auxiliary list fact: reading the appended last element. -/
theorem getD_append_length {α : Type} (d : α) :
    ∀ (l : List α) (a : α), (l ++ [a]).getD l.length d = a
  | [], _ => rfl
  | _ :: l, a => getD_append_length d l a

/-- Auxiliary list fact: element `i` of the zipped line list. -/
theorem getD_zipWith_lines {T U : Type} (dT : T → String) (dU : U → String)
    (t0 : T) (u0 : U) :
    ∀ (us : List U) (xs : List T) (i : Nat), xs.length ≤ us.length →
      i < xs.length →
      (List.zipWith (fun u x => dU u ++ "\t" ++ dT x) us xs).getD i ""
        = dU (us.getD i u0) ++ "\t" ++ dT (xs.getD i t0)
  | _, [], i, _, h => by simp at h
  | [], x :: xs, i, hle, _ => by simp at hle
  | u :: us, x :: xs, 0, _, _ => rfl
  | u :: us, x :: xs, i + 1, hle, h =>
    getD_zipWith_lines dT dU t0 u0 us xs i (by simpa using hle)
      (by simpa using h)

/-- C1: every construction operation returns only instances satisfying the
length invariant `data.length = label.length` (for the duplication helper
`from_self` the input is assumed to satisfy the invariant, as every
constructor-produced series does). -/
theorem c1_constructors_length_invariant {T U L : Type} :
    (∀ v : List T,
      (Series.from_values v).data.length = (Series.from_values v).label.length)
    ∧ (∀ (v : List T) (l : List U) (s : Series T U),
      Series.from_label v l = .ok s → s.data.length = s.label.length)
    ∧ (∀ s : Series T U, s.data.length = s.label.length →
      (Series.from_self s).data.length = (Series.from_self s).label.length)
    ∧ (∀ s : Series T U,
      (Series.from_data s).data.length = (Series.from_data s).label.length)
    ∧ (∀ (s : Series T U) (l : List L) (s2 : Series T L),
      Series.from_data_new_label s l = .ok s2 →
        s2.data.length = s2.label.length) := by
  refine ⟨?_, ?_, ?_, ?_, ?_⟩
  · intro v
    simp [Series.from_values]
  · intro v l s h
    rw [Series.from_label] at h
    split at h
    · exact absurd h (by simp)
    · rename_i hc
      cases h
      simpa using Classical.not_not.mp hc
  · intro s h
    simpa [Series.from_self] using h
  · intro s
    simp [Series.from_data]
  · intro s l s2 h
    rw [Series.from_data_new_label] at h
    split at h
    · exact absurd h (by simp)
    · rename_i hc
      cases h
      simpa using Classical.not_not.mp hc

/-- Witness for C1 at concrete inputs, one per constructor. -/
theorem c1_constructors_length_invariant_witness :
    ((Series.from_values ([7, 8] : List Nat)).data.length
      = (Series.from_values ([7, 8] : List Nat)).label.length)
    ∧ ((⟨[1, 2], [3, 4]⟩ : Series Nat Nat).data.length
      = (⟨[1, 2], [3, 4]⟩ : Series Nat Nat).label.length)
    ∧ ((Series.from_self (⟨[1], [2]⟩ : Series Nat Nat)).data.length
      = (Series.from_self (⟨[1], [2]⟩ : Series Nat Nat)).label.length)
    ∧ ((Series.from_data (⟨[1], [9, 9]⟩ : Series Nat Nat)).data.length
      = (Series.from_data (⟨[1], [9, 9]⟩ : Series Nat Nat)).label.length)
    ∧ ((⟨[1, 2], [5, 6]⟩ : Series Nat Nat).data.length
      = (⟨[1, 2], [5, 6]⟩ : Series Nat Nat).label.length) := by
  obtain ⟨h1, h2, h3, h4, h5⟩ :=
    @c1_constructors_length_invariant Nat Nat Nat
  exact ⟨h1 [7, 8],
    h2 [1, 2] [3, 4] ⟨[1, 2], [3, 4]⟩ rfl,
    h3 ⟨[1], [2]⟩ rfl,
    h4 ⟨[1], [9, 9]⟩,
    h5 ⟨[1, 2], [7, 7]⟩ [5, 6] ⟨[1, 2], [5, 6]⟩ rfl⟩

/-- C2: whenever the value and label sequences have different lengths,
`from_label` fails with the length-mismatch error (and so produces no
instance). -/
theorem c2_from_label_length_mismatch {T U : Type} (v : List T) (l : List U)
    (h : v.length ≠ l.length) :
    Series.from_label v l = .error SeriesError.lengthMismatch := by
  simp [Series.from_label, h]

/-- Witness for C2 on the spec scenario
`from_values_and_labels([1,2,3],[1])`. -/
theorem c2_from_label_length_mismatch_witness :
    ([1, 2, 3] : List Nat).length ≠ ([1] : List Nat).length
    ∧ Series.from_label ([1, 2, 3] : List Nat) ([1] : List Nat)
      = .error SeriesError.lengthMismatch :=
  ⟨by decide, c2_from_label_length_mismatch [1, 2, 3] [1] (by decide)⟩

/-- C3: transpose yields values and labels identical to its input, is the
identity on every series, and is idempotent. -/
theorem c3_transpose_identity {T U : Type} (s : Series T U) :
    (Series.t s).data = s.data
    ∧ (Series.t s).label = s.label
    ∧ Series.t s = s
    ∧ Series.t (Series.t s) = Series.t s
    ∧ Series.t (Series.t s) = s :=
  ⟨rfl, rfl, rfl, rfl, rfl⟩

/-- C4: `from_values` keeps the data and assigns the default positional
labels `0, 1, ..., n - 1`. -/
theorem c4_from_values_default_labels {T : Type} (v : List T) :
    (Series.from_values v).data = v
    ∧ (Series.from_values v).label = List.range v.length
    ∧ (Series.from_values v).label.length = v.length
    ∧ ∀ i, i < v.length → (Series.from_values v).label.getD i 0 = i := by
  refine ⟨rfl, rfl, by simp [Series.from_values], ?_⟩
  intro i hi
  simp [Series.from_values, List.getD, List.getElem?_range hi]

/-- Witness for C4 at the concrete input `[5, 6, 7]`. -/
theorem c4_from_values_default_labels_witness :
    (Series.from_values ([5, 6, 7] : List Nat)).data = [5, 6, 7]
    ∧ (2 < ([5, 6, 7] : List Nat).length
      ∧ (Series.from_values ([5, 6, 7] : List Nat)).label.getD 2 0 = 2) :=
  ⟨(c4_from_values_default_labels [5, 6, 7]).1,
    by decide,
    (c4_from_values_default_labels [5, 6, 7]).2.2.2 2 (by decide)⟩

/-- C5: `from_data_new_label` keeps the data unchanged and substitutes the
new labels (of a possibly different type) when the lengths agree, and
fails with the length-mismatch error otherwise. -/
theorem c5_from_data_new_label_contract {T U L : Type} (s : Series T U)
    (l : List L) :
    (s.data.length = l.length →
      Series.from_data_new_label s l = .ok { data := s.data, label := l })
    ∧ (s.data.length ≠ l.length →
      Series.from_data_new_label s l
        = .error SeriesError.lengthMismatch) := by
  constructor <;> intro h <;> simp [Series.from_data_new_label, h]

/-- Witness for C5: a label-type change from `Bool` to `String` in the
matching case and a failure in the mismatched case. -/
theorem c5_from_data_new_label_contract_witness :
    (((⟨[1, 2], [true, false]⟩ : Series Nat Bool)).data.length
      = (["x", "y"] : List String).length
      ∧ Series.from_data_new_label (⟨[1, 2], [true, false]⟩ : Series Nat Bool)
          (["x", "y"] : List String)
        = .ok { data := [1, 2], label := ["x", "y"] })
    ∧ (((⟨[1, 2], [true, false]⟩ : Series Nat Bool)).data.length
      ≠ (["x"] : List String).length
      ∧ Series.from_data_new_label (⟨[1, 2], [true, false]⟩ : Series Nat Bool)
          (["x"] : List String)
        = .error SeriesError.lengthMismatch) :=
  ⟨⟨by decide,
    (c5_from_data_new_label_contract ⟨[1, 2], [true, false]⟩ ["x", "y"]).1
      (by decide)⟩,
   ⟨by decide,
    (c5_from_data_new_label_contract ⟨[1, 2], [true, false]⟩ ["x"]).2
      (by decide)⟩⟩

/-- C6: `from_data` keeps the data of its input and replaces the labels
with the default positions `0, 1, ..., n - 1`, discarding the old
labels. -/
theorem c6_from_data_default_labels {T U : Type} (s : Series T U) :
    (Series.from_data s).data = s.data
    ∧ (Series.from_data s).label = List.range s.data.length
    ∧ ∀ i, i < s.data.length → (Series.from_data s).label.getD i 0 = i := by
  refine ⟨rfl, rfl, ?_⟩
  intro i hi
  simp [Series.from_data, List.getD, List.getElem?_range hi]

/-- Witness for C6 on the spec scenario: after
`from_values_and_labels([1,2,3], [10,20,30])`, default relabelling gives
labels `[0, 1, 2]` and unchanged values `[1, 2, 3]`. -/
theorem c6_from_data_default_labels_witness :
    Series.from_label ([1, 2, 3] : List Nat) ([10, 20, 30] : List Nat)
      = .ok ⟨[1, 2, 3], [10, 20, 30]⟩
    ∧ (Series.from_data (⟨[1, 2, 3], [10, 20, 30]⟩ : Series Nat Nat)).data
      = [1, 2, 3]
    ∧ (Series.from_data (⟨[1, 2, 3], [10, 20, 30]⟩ : Series Nat Nat)).label
      = [0, 1, 2]
    ∧ (1 < ([1, 2, 3] : List Nat).length
      ∧ (Series.from_data
          (⟨[1, 2, 3], [10, 20, 30]⟩ : Series Nat Nat)).label.getD 1 0 = 1) :=
  ⟨rfl,
    (c6_from_data_default_labels ⟨[1, 2, 3], [10, 20, 30]⟩).1,
    ((c6_from_data_default_labels ⟨[1, 2, 3], [10, 20, 30]⟩).2.1).trans
      (by decide),
    by decide,
    (c6_from_data_default_labels ⟨[1, 2, 3], [10, 20, 30]⟩).2.2 1 (by decide)⟩

/-- C7: on a series satisfying the length invariant, `debug` emits exactly
`n` lines, the `i`-th being `<label[i]><tab><value[i]>`, in positional
order, followed by a single trailing line naming the value type. -/
theorem c7_debug_line_format {T U : Type} (dT : T → String)
    (dU : U → String) (nm : String) (t0 : T) (u0 : U) (s : Series T U)
    (h : s.label.length = s.data.length) :
    ∃ L, Series.debugLines dT dU nm s = some L
      ∧ L.length = s.data.length + 1
      ∧ (∀ i, i < s.data.length →
        L.getD i "" = dU (s.label.getD i u0) ++ "\t" ++ dT (s.data.getD i t0))
      ∧ L.getD s.data.length "" = "type : " ++ nm := by
  have hle : s.data.length ≤ s.label.length := le_of_eq h.symm
  have hz := Series.pairLines_eq_zipWith dT dU s.label s.data hle
  have hzlen :
      (List.zipWith (fun u x => dU u ++ "\t" ++ dT x)
        s.label s.data).length = s.data.length := by
    simp [List.length_zipWith, h]
  refine ⟨List.zipWith (fun u x => dU u ++ "\t" ++ dT x) s.label s.data
    ++ ["type : " ++ nm], ?_, ?_, ?_, ?_⟩
  · simp [Series.debugLines, hz]
  · simp [List.length_append, hzlen]
  · intro i hi
    rw [getD_append_left "" _ _ i (by rw [hzlen]; exact hi)]
    exact getD_zipWith_lines dT dU t0 u0 s.label s.data i hle hi
  · rw [← hzlen]
    exact getD_append_length "" _ _

/-- Witness for C7 on the spec scenario: `debug` on the series built from
values `["a", "b"]` and labels `[10, 20]` emits `10\ta` then `20\tb`,
then the type line. -/
theorem c7_debug_line_format_witness :
    ((⟨["a", "b"], [10, 20]⟩ : Series String Nat).label.length
      = (⟨["a", "b"], [10, 20]⟩ : Series String Nat).data.length
    ∧ ∃ L, Series.debugLines (fun x => x) (fun n => toString n)
        "alloc::string::String"
        (⟨["a", "b"], [10, 20]⟩ : Series String Nat) = some L
      ∧ L.length = (⟨["a", "b"], [10, 20]⟩ : Series String Nat).data.length + 1
      ∧ (∀ i, i < (⟨["a", "b"], [10, 20]⟩ : Series String Nat).data.length →
        L.getD i "" = toString
            ((⟨["a", "b"], [10, 20]⟩ : Series String Nat).label.getD i 0)
          ++ "\t"
          ++ (⟨["a", "b"], [10, 20]⟩ : Series String Nat).data.getD i "")
      ∧ L.getD (⟨["a", "b"], [10, 20]⟩ : Series String Nat).data.length ""
        = "type : " ++ "alloc::string::String")
    ∧ Series.debugLines (fun x => x) (fun n => toString n)
        "alloc::string::String"
        (⟨["a", "b"], [10, 20]⟩ : Series String Nat)
      = some ["10\ta", "20\tb", "type : alloc::string::String"] :=
  ⟨⟨rfl,
    c7_debug_line_format (fun x => x) (fun n => toString n)
      "alloc::string::String" "" 0
      (⟨["a", "b"], [10, 20]⟩ : Series String Nat) rfl⟩,
   rfl⟩

/-- C8: duplication via `from_self` reproduces the data and the labels of
its input exactly, element for element. -/
theorem c8_from_self_duplicates {T U : Type} (s : Series T U) :
    (Series.from_self s).data = s.data
    ∧ (Series.from_self s).label = s.label
    ∧ Series.from_self s = s :=
  ⟨rfl, rfl, rfl⟩

/-- C9: on any series satisfying the length invariant (as all constructor
outputs do), `debug` succeeds, and transpose, duplication and
default-label construction are total identities or total constructions;
none of the four can fail. -/
theorem c9_read_ops_total {T U : Type} (dT : T → String) (dU : U → String)
    (nm : String) (s : Series T U)
    (h : s.label.length = s.data.length) :
    (Series.debugLines dT dU nm s).isSome = true
    ∧ Series.t s = s
    ∧ Series.from_self s = s
    ∧ (Series.from_data s).data = s.data
    ∧ (Series.from_data s).label = List.range s.data.length := by
  refine ⟨?_, rfl, rfl, rfl, rfl⟩
  have hz := Series.pairLines_eq_zipWith dT dU s.label s.data (le_of_eq h.symm)
  simp [Series.debugLines, hz]

/-- Witness for C9 at a concrete constructor-produced series. -/
theorem c9_read_ops_total_witness :
    ((⟨[1, 2], [8, 9]⟩ : Series Nat Nat).label.length
      = (⟨[1, 2], [8, 9]⟩ : Series Nat Nat).data.length)
    ∧ ((Series.debugLines (fun n => toString n) (fun n => toString n) "i32"
        (⟨[1, 2], [8, 9]⟩ : Series Nat Nat)).isSome = true
      ∧ Series.t (⟨[1, 2], [8, 9]⟩ : Series Nat Nat) = ⟨[1, 2], [8, 9]⟩
      ∧ Series.from_self (⟨[1, 2], [8, 9]⟩ : Series Nat Nat) = ⟨[1, 2], [8, 9]⟩
      ∧ (Series.from_data (⟨[1, 2], [8, 9]⟩ : Series Nat Nat)).data = [1, 2]
      ∧ (Series.from_data (⟨[1, 2], [8, 9]⟩ : Series Nat Nat)).label
        = List.range ([1, 2] : List Nat).length) :=
  ⟨rfl,
    c9_read_ops_total (fun n => toString n) (fun n => toString n) "i32"
      (⟨[1, 2], [8, 9]⟩ : Series Nat Nat) rfl⟩

/-- C10: the duplication helper `from_self` produces exactly the series
produced by the derived field-wise `Clone` implementation. -/
theorem c10_from_self_eq_derived_clone {T U : Type} (s : Series T U) :
    Series.from_self s = Series.derivedClone s := by
  simp [Series.from_self, Series.derivedClone]
